import Mathlib

/-!
Shallow embedding of the post-processing pipeline of the
universal_doc_processor repository
(src/universal_doc_processor/utils/post_processor.py and
src/universal_doc_processor/models.py).

Python strings are modelled as lists of characters (`Str`).

A load-bearing fact about the source: post_processor.py writes its line
separator and most of its regular expressions with DOUBLED backslashes
inside ordinary or raw Python string literals, e.g. `text.split("\\n")`
and `re.match(r"^\\|", ...)`.  In Python, `"\\n"` is the two-character
string backslash-n, and inside a raw regex string `\\` is an escaped
(literal) backslash.  The embedding follows those literal semantics
exactly; each definition's doc comment records the parse of the regex it
embeds.  (Line 231 of the source, the year / "et al." detection, uses
correctly single-escaped regexes and is embedded accordingly.)
-/

/-- A Python string, modelled as its list of characters. -/
abbrev Str := List Char

/-- Python whitespace (the ASCII characters recognised by str.strip and
by the regex class backslash-s; inputs in this development are ASCII). -/
def isPyWs (c : Char) : Bool :=
  c = ' ' || c = '\t' || c = '\n' || c = '\r' || c = '\x0b' || c = '\x0c'

/-- Python str.lstrip(). -/
def pyLstrip (s : Str) : Str := s.dropWhile isPyWs

/-- Python str.rstrip(). -/
def pyRstrip (s : Str) : Str := (s.reverse.dropWhile isPyWs).reverse

/-- Python str.strip(). -/
def pyStrip (s : Str) : Str := pyLstrip (pyRstrip s)

/-- models.py QualityMetrics: the counters record.  Fields default to
zero exactly as in the pydantic model; `processing_time_seconds` (a
float the pipeline never writes) is modelled as a rational. -/
structure QualityMetrics where
  paragraphs_merged : Nat := 0
  headers_removed : Nat := 0
  formatting_fixes : Nat := 0
  lines_processed : Nat := 0
  tables_detected : Nat := 0
  figures_detected : Nat := 0
  references_detected : Nat := 0
  processing_time_seconds : ℚ := 0
  pages_processed : Nat := 0
  word_count : Nat := 0
  deriving Repr, DecidableEq

/-- models.py QualityMetrics.calculate_score.  Python floats are
modelled as rationals; the arithmetic (two exact divisions, an affine
combination, a clamp) is reproduced verbatim. -/
def QualityMetrics.calculate_score (m : QualityMetrics) : ℚ :=
  if m.lines_processed = 0 then 0
  else
    let mergeEfficiency : ℚ :=
      1 - (m.paragraphs_merged : ℚ) / ((max m.lines_processed 1 : ℕ) : ℚ)
    let formattingRatio : ℚ :=
      (m.formatting_fixes : ℚ) / ((max m.lines_processed 1 : ℕ) : ℚ)
    min 100 (max 0 (mergeEfficiency * 60 + formattingRatio * 20 + 20))

/-- C3: the quality score computed by calculate_score equals
clamp(0, 100, 60·(1 − paragraphs_merged/max(lines_processed,1))
+ 20·(formatting_fixes/max(lines_processed,1)) + 20) whenever
lines_processed > 0 (expressed below via the if-branch), the score
always lies in [0, 100], and lines_processed = 0 forces score 0. -/
theorem calculate_score_spec (m : QualityMetrics) :
    m.calculate_score =
      (if m.lines_processed = 0 then 0
       else min 100 (max 0
         (60 * (1 - (m.paragraphs_merged : ℚ) / ((max m.lines_processed 1 : ℕ) : ℚ))
           + 20 * ((m.formatting_fixes : ℚ) / ((max m.lines_processed 1 : ℕ) : ℚ))
           + 20)))
    ∧ 0 ≤ m.calculate_score ∧ m.calculate_score ≤ 100 := by
  unfold QualityMetrics.calculate_score
  by_cases h : m.lines_processed = 0
  · simp [h]
  · simp only [h, if_false]
    refine ⟨?_, ?_, ?_⟩
    · have hring :
        (1 - (m.paragraphs_merged : ℚ) / ((max m.lines_processed 1 : ℕ) : ℚ)) * 60
          + ((m.formatting_fixes : ℚ) / ((max m.lines_processed 1 : ℕ) : ℚ)) * 20 + 20
        = 60 * (1 - (m.paragraphs_merged : ℚ) / ((max m.lines_processed 1 : ℕ) : ℚ))
          + 20 * ((m.formatting_fixes : ℚ) / ((max m.lines_processed 1 : ℕ) : ℚ))
          + 20 := by ring
      rw [hring]
    · exact le_min (by norm_num) (le_max_left _ _)
    · exact min_le_left _ _

/-- post_processor.py line 16: `lines = text.split("\\n")`.  The Python
separator literal `"\\n"` is the two-character string backslash-n, so
the text is split on each non-overlapping occurrence of that literal
pair (real newline characters are NOT separators). -/
def pySplitBsn : Str → List Str
  | [] => [[]]
  | '\\' :: 'n' :: rest => [] :: pySplitBsn rest
  | c :: rest =>
    match pySplitBsn rest with
    | h :: t => (c :: h) :: t
    | [] => [[c]]

/-- post_processor.py line 45: `final_text = "\\n".join(lines)` — join
with the literal backslash-n pair. -/
def joinBsn (lines : List Str) : Str := List.intercalate ['\\', 'n'] lines

/-- Python str.split() with no argument: whitespace-run tokenisation
with no empty tokens (used for the word count, line 46). -/
def pyWordsAux : Str → Str → List Str
  | [], acc => if acc = [] then [] else [acc.reverse]
  | c :: rest, acc =>
    if isPyWs c then
      (if acc = [] then pyWordsAux rest [] else acc.reverse :: pyWordsAux rest [])
    else pyWordsAux rest (c :: acc)

/-- Python str.split() with no argument. -/
def pyWords (s : Str) : List Str := pyWordsAux s []

/-- A compiled header/section pattern is modelled by its match
predicate: `p t` stands for Python `re.match(pattern, t) is not None`
(re.match anchors at the start of `t`, i.e. is a prefix match). -/
abbrev MatchPred := Str → Bool

/-- post_processor.py `_remove_headers` (lines 50-66): per line, the
patterns are tried in declaration order with a short-circuit on the
first match against the stripped line; matching lines are dropped and
counted, the rest are kept in order. -/
def removeHeaders (patterns : List MatchPred) : List Str → List Str × Nat
  | [] => ([], 0)
  | l :: ls =>
    let r := removeHeaders patterns ls
    if patterns.any (fun p => p (pyStrip l)) then (r.1, r.2 + 1)
    else (l :: r.1, r.2)

/-- Characterisation of `removeHeaders`: kept lines are the filter of
the non-matching lines, and the count is the number of matching lines. -/
theorem removeHeaders_eq (patterns : List MatchPred) (lines : List Str) :
    removeHeaders patterns lines =
      (lines.filter (fun l => !(patterns.any (fun p => p (pyStrip l)))),
       lines.countP (fun l => patterns.any (fun p => p (pyStrip l)))) := by
  induction lines with
  | nil => rfl
  | cons l ls ih =>
    by_cases h : patterns.any (fun p => p (pyStrip l))
    · simp [removeHeaders, ih, h, List.filter_cons, List.countP_cons]
    · simp [removeHeaders, ih, h, List.filter_cons, List.countP_cons]

/-- C4: for every line sequence and every pattern list, the Header
Filter removes exactly those lines whose stripped content matches some
pattern (patterns tested in declaration order, `List.any` short-circuits
on the first match per line), returns the remaining lines unchanged and
in their original order (a filter of the input), and reports a count
equal to the number of lines removed. -/
theorem removeHeaders_filter_spec (patterns : List MatchPred) (lines : List Str) :
    (removeHeaders patterns lines).1 =
        lines.filter (fun l => !(patterns.any (fun p => p (pyStrip l))))
    ∧ (removeHeaders patterns lines).2 =
        lines.countP (fun l => patterns.any (fun p => p (pyStrip l)))
    ∧ ∀ l, l ∈ (removeHeaders patterns lines).1 →
        ¬ (∃ p ∈ patterns, p (pyStrip l) = true) := by
  refine ⟨by rw [removeHeaders_eq], by rw [removeHeaders_eq], ?_⟩
  intro l hl
  rw [removeHeaders_eq] at hl
  have hmem := List.of_mem_filter hl
  simp only [Bool.not_eq_true', List.any_eq_false] at hmem
  rintro ⟨p, hp, hpl⟩
  exact absurd hpl (by simpa using hmem p hp)

/-- C10: conservation invariant of the Header Filter — the kept lines
plus the removed count account for every input line, and the kept lines
form a subsequence of the input in the original order. -/
theorem removeHeaders_conservation (patterns : List MatchPred) (lines : List Str) :
    (removeHeaders patterns lines).1.length + (removeHeaders patterns lines).2
        = lines.length
    ∧ (removeHeaders patterns lines).1.Sublist lines := by
  induction lines with
  | nil => exact ⟨rfl, List.Sublist.refl _⟩
  | cons l ls ih =>
    have hstep : removeHeaders patterns (l :: ls) =
        if patterns.any (fun p => p (pyStrip l)) then
          ((removeHeaders patterns ls).1, (removeHeaders patterns ls).2 + 1)
        else
          (l :: (removeHeaders patterns ls).1, (removeHeaders patterns ls).2) := rfl
    by_cases h : patterns.any (fun p => p (pyStrip l))
    · rw [hstep, if_pos h]
      exact ⟨by have := ih.1; simp only [List.length_cons]; omega, ih.2.cons l⟩
    · rw [hstep, if_neg h]
      exact ⟨by have := ih.1; simp only [List.length_cons]; omega, ih.2.cons₂ l⟩

/-! ## The built-in special-line patterns (post_processor.py lines 124-141)

Each raw-string regex below is transcribed character for character; where
the source doubles a backslash, the Python regex contains a literal
backslash character and the predicate reflects that. -/

/-- r"^#+\\s": one or more '#' then a literal backslash then 's'
(the doubled backslash escapes the backslash, so there is no
whitespace class here).  A shorter '#' run cannot match because the
next required character is a backslash, never '#'. -/
def spMdHeader (t : Str) : Bool :=
  !(t.takeWhile (fun c => c = '#')).isEmpty
    && ['\\', 's'].isPrefixOf (t.dropWhile (fun c => c = '#'))

/-- r"^\\*\\*[A-Z]": each `\\*` is an escaped backslash under a star,
i.e. zero or more literal backslashes; the line matches when its first
non-backslash character is an uppercase ASCII letter. -/
def spBoldUpper (t : Str) : Bool :=
  match t.dropWhile (fun c => c = '\\') with
  | c :: _ => c.isUpper
  | [] => false

/-- r"^---+$": three or more hyphens spanning the whole (stripped)
line. -/
def spHRule (t : Str) : Bool :=
  t.length ≥ 3 && t.all (fun c => c = '-')

/-- r"^\\|": the backslash is escaped, so the '|' is a top-level
alternation operator; the pattern is the alternation of `^\\` with the
EMPTY pattern, and re.match therefore succeeds on every string. -/
def spTableRow (_t : Str) : Bool := true

/-- Shared tail of the Exercise/Figure/Table patterns: `\\s+\\d+`
parses as a literal backslash, one or more 's', a literal backslash,
one or more 'd' (prefix match, so one 'd' suffices). -/
def afterBsSPlusBsD (r : Str) : Bool :=
  match r with
  | '\\' :: r2 =>
    !(r2.takeWhile (fun c => c = 's')).isEmpty
      && (match r2.dropWhile (fun c => c = 's') with
          | '\\' :: 'd' :: _ => true
          | _ => false)
  | _ => false

/-- r"^\\d+\\.\\s": literal backslash, one or more 'd', literal
backslash, any character (not a newline), literal backslash, 's'. -/
def spNumbered (t : Str) : Bool :=
  match t with
  | '\\' :: rest =>
    !(rest.takeWhile (fun c => c = 'd')).isEmpty
      && (match rest.dropWhile (fun c => c = 'd') with
          | '\\' :: c :: '\\' :: 's' :: _ => c ≠ '\n'
          | _ => false)
  | _ => false

/-- r"^-\\s": a hyphen, a literal backslash, 's'. -/
def spBullet1 (t : Str) : Bool := ['-', '\\', 's'].isPrefixOf t

/-- r"^\\*\\s": zero or more literal backslashes (from `\\*`), then a
literal backslash and 's' — i.e. one or more backslashes followed by
's'. -/
def spBullet2 (t : Str) : Bool :=
  match t with
  | '\\' :: _ => (t.dropWhile (fun c => c = '\\')).head? = some 's'
  | _ => false

/-- Character class `[A-Z\\s]`: uppercase ASCII, a literal backslash,
or the letter 's'. -/
def inSpeakerClass (c : Char) : Bool := c.isUpper || c = '\\' || c = 's'

/-- r"^[A-Z][A-Z\\s]+:": an uppercase letter, one or more characters
from `[A-Z\\s]`, then a colon.  ':' is not in the class, so only the
maximal class run can be followed by the colon. -/
def spSpeaker (t : Str) : Bool :=
  match t with
  | c :: rest =>
    c.isUpper && !(rest.takeWhile inSpeakerClass).isEmpty
      && ((rest.dropWhile inSpeakerClass).head? = some ':')
  | [] => false

/-- r"^Exercise\\s+\\d+": the literal word then the `\\s+\\d+` tail. -/
def spExercise (t : Str) : Bool :=
  ['E', 'x', 'e', 'r', 'c', 'i', 's', 'e'].isPrefixOf t && afterBsSPlusBsD (t.drop 8)

/-- r"^\\*\\*Exercise\\s+\\d+": zero or more literal backslashes, then
as the Exercise pattern. -/
def spBoldExercise (t : Str) : Bool :=
  spExercise (t.dropWhile (fun c => c = '\\'))

/-- r"^Example:": a plain literal prefix (no backslashes in the
source). -/
def spExample (t : Str) : Bool :=
  ['E', 'x', 'a', 'm', 'p', 'l', 'e', ':'].isPrefixOf t

/-- r"^\\*\\*.*\\*\\*$": the `\\*` pieces are optional backslash runs
(also absorbed by `.*`), so the pattern matches exactly when the
string — after discarding a single final newline that `$` may precede —
contains no newline character (`.` does not match newline). -/
def spFullBold (t : Str) : Bool :=
  let u := if t.getLast? = some '\n' then t.dropLast else t
  !(u.any (fun c => c = '\n'))

/-- r"^Figure\\s+\\d+". -/
def spFigure (t : Str) : Bool :=
  ['F', 'i', 'g', 'u', 'r', 'e'].isPrefixOf t && afterBsSPlusBsD (t.drop 6)

/-- r"^Table\\s+\\d+". -/
def spTable (t : Str) : Bool :=
  ['T', 'a', 'b', 'l', 'e'].isPrefixOf t && afterBsSPlusBsD (t.drop 5)

/-- Shared tail of the Abstract/References patterns: `\\s*$` is a
literal backslash, zero or more 's', then end of string (or a position
just before one final newline). -/
def afterBsSStarEnd (r : Str) : Bool :=
  match r with
  | '\\' :: r2 =>
    (match r2.dropWhile (fun c => c = 's') with
     | [] => true
     | ['\n'] => true
     | _ => false)
  | _ => false

/-- r"^Abstract\\s*$". -/
def spAbstract (t : Str) : Bool :=
  ['A', 'b', 's', 't', 'r', 'a', 'c', 't'].isPrefixOf t && afterBsSStarEnd (t.drop 8)

/-- r"^References\\s*$". -/
def spReferences (t : Str) : Bool :=
  ['R', 'e', 'f', 'e', 'r', 'e', 'n', 'c', 'e', 's'].isPrefixOf t
    && afterBsSStarEnd (t.drop 10)

/-- The fixed special-pattern list of `_is_special_line`
(post_processor.py lines 124-141), in declaration order. -/
def specialPatterns : List MatchPred :=
  [spMdHeader, spBoldUpper, spHRule, spTableRow, spNumbered, spBullet1,
   spBullet2, spSpeaker, spExercise, spBoldExercise, spExample,
   spFullBold, spFigure, spTable, spAbstract, spReferences]

/-- models.py ProcessingProfile, restricted to the fields the
post-processor reads: the two pattern lists (modelled by their compiled
match predicates) and the five stage toggles, with the pydantic field
defaults.  The OCR/LLM configuration strings (name, description,
model_name, system_prompt, ...) are never read by process_text and are
omitted. -/
structure ProcessingProfile where
  header_patterns : List MatchPred := []
  section_patterns : List MatchPred := []
  enable_paragraph_merging : Bool := true
  enable_header_removal : Bool := true
  enable_table_detection : Bool := true
  enable_figure_detection : Bool := true
  enable_reference_formatting : Bool := true
  min_quality_score : ℚ := 75
  max_retries : Nat := 2

/-- post_processor.py `_is_special_line` (lines 116-143): the profile's
section patterns are tried first (in order, early return), then the
fixed built-in list, each against the stripped line. -/
def isSpecialLine (profile : ProcessingProfile) (line : Str) : Bool :=
  profile.section_patterns.any (fun p => p (pyStrip line))
    || specialPatterns.any (fun p => p (pyStrip line))

/-- post_processor.py `_ends_sentence` (lines 166-173).  The search
regex r"[.!?]\\s*$" requires one of `.!?`, then a LITERAL backslash,
then zero or more 's', at the end of the right-trimmed line; otherwise
the function only recognises a trailing colon. -/
def endsSentence (line : Str) : Bool :=
  let l := pyRstrip line
  (match l.reverse.dropWhile (fun c => c = 's') with
   | '\\' :: c :: _ => c = '.' || c = '!' || c = '?'
   | _ => false)
    || l.getLast? = some ':'

/-- The section keywords of `_looks_like_new_section` (line 177); the
regex is an anchored alternation of plain words, i.e. a prefix test. -/
def sectionWords : List Str :=
  [['A', 'b', 's', 't', 'r', 'a', 'c', 't'],
   ['I', 'n', 't', 'r', 'o', 'd', 'u', 'c', 't', 'i', 'o', 'n'],
   ['M', 'e', 't', 'h', 'o', 'd', 's'],
   ['R', 'e', 's', 'u', 'l', 't', 's'],
   ['D', 'i', 's', 'c', 'u', 's', 's', 'i', 'o', 'n'],
   ['C', 'o', 'n', 'c', 'l', 'u', 's', 'i', 'o', 'n'],
   ['R', 'e', 'f', 'e', 'r', 'e', 'n', 'c', 'e', 's'],
   ['F', 'i', 'g', 'u', 'r', 'e'],
   ['T', 'a', 'b', 'l', 'e'],
   ['E', 'x', 'e', 'r', 'c', 'i', 's', 'e']]

/-- post_processor.py `_looks_like_new_section` (lines 175-177). -/
def looksLikeNewSection (line : Str) : Bool :=
  sectionWords.any (fun w => w.isPrefixOf line)

/-- post_processor.py `_should_merge_with_previous` (lines 145-164),
with its guard order preserved.  `^[A-Z]` and `^[a-zà-ÿ]` are
correctly single-escaped in the source and are first-character class
tests (the second covers codepoints 0xE0-0xFF); the final fallback
regex r"[.!?:;]$" is also single-escaped and tests the last character
of the right-trimmed previous line. -/
def shouldMergeWithPrevious (prev cur : Str) : Bool :=
  if endsSentence prev then false
  else if (match cur with | c :: _ => c.isUpper | [] => false)
      && List.isSuffixOf ['.'] (pyRstrip prev) then false
  else if List.isSuffixOf ['-'] (pyRstrip prev) then true
  else if (match cur with
           | c :: _ => c.isLower || (0xE0 ≤ c.toNat && c.toNat ≤ 0xFF)
           | [] => false) then true
  else
    !(match (pyRstrip prev).getLast? with
      | some c => c = '.' || c = '!' || c = '?' || c = ':' || c = ';'
      | none => false)
      && !(looksLikeNewSection cur)

/-- post_processor.py `_fix_split_formatting` (lines 179-195).  Python
slicing `x[:-2]` is truncating `take (length - 2)`; the function
returns the empty string when no split formatting is detected. -/
def fixSplitFormatting (prev cur : Str) : Str :=
  let pr := pyRstrip prev
  if List.isSuffixOf ['*', '*'] pr && List.isPrefixOf ['*', '*'] cur then
    pr.take (pr.length - 2) ++ cur.drop 2
  else if List.isSuffixOf ['*'] pr && List.isPrefixOf ['*'] cur
      && !(List.isSuffixOf [' ', '*'] pr) then
    pr.take (pr.length - 1) ++ cur.drop 1
  else []

/-- Loop state of `_merge_paragraphs`: the output accumulator, the
current paragraph buffer and the merge counter. -/
structure MergeState where
  merged : List Str
  current : List Str
  count : Nat
  deriving Repr, DecidableEq

/-- `if current_paragraph: merged_lines.append(" ".join(current_paragraph))`. -/
def flushCurrent (st : MergeState) : List Str :=
  if st.current.isEmpty then st.merged
  else st.merged ++ [List.intercalate [' '] st.current]

/-- One iteration of the `_merge_paragraphs` loop (lines 74-108),
branch for branch: blank line, special line, merge-with-previous
(with the split-formatting repair replacing the buffer's last element),
and the flush-or-append fallback. -/
def mergeStep (profile : ProcessingProfile) (st : MergeState) (line : Str) : MergeState :=
  let l := pyRstrip line
  if l.isEmpty then
    { merged := flushCurrent st ++ [[]], current := [], count := st.count }
  else if isSpecialLine profile l then
    { merged := flushCurrent st ++ [l], current := [], count := st.count }
  else if !st.current.isEmpty && shouldMergeWithPrevious (st.current.getLastD []) l then
    let fixedLine := fixSplitFormatting (st.current.getLastD []) l
    if !fixedLine.isEmpty then
      { merged := st.merged, current := st.current.dropLast ++ [fixedLine],
        count := st.count + 1 }
    else
      { merged := st.merged, current := st.current ++ [l], count := st.count + 1 }
  else if !st.current.isEmpty && endsSentence (st.current.getLastD []) then
    { merged := st.merged ++ [List.intercalate [' '] st.current], current := [l],
      count := st.count }
  else
    { merged := st.merged, current := st.current ++ [l], count := st.count }

/-- post_processor.py `_merge_paragraphs` (lines 68-114): fold the loop
over the lines, then flush the remaining buffer. -/
def mergeParagraphs (profile : ProcessingProfile) (lines : List Str) : List Str × Nat :=
  let st := lines.foldl (mergeStep profile) ⟨[], [], 0⟩
  (flushCurrent st, st.count)

/-- Because the built-in pattern r"^\\|" (see `spTableRow`) matches
every string, the built-in any-scan of `_is_special_line` is always
true. -/
theorem specialPatterns_any_true (t : Str) :
    specialPatterns.any (fun p => p t) = true := by
  simp [specialPatterns, spTableRow]

/-- Every line is classified as special by `_is_special_line`. -/
theorem isSpecialLine_true (profile : ProcessingProfile) (line : Str) :
    isSpecialLine profile line = true := by
  unfold isSpecialLine
  rw [specialPatterns_any_true, Bool.or_true]

/-- When the paragraph buffer is empty, one `_merge_paragraphs` loop
iteration appends the right-trimmed line verbatim (blank lines become
the empty output line) and leaves the buffer empty and the counter
untouched. -/
theorem mergeStep_current_nil (profile : ProcessingProfile) (st : MergeState)
    (line : Str) (h : st.current = []) :
    mergeStep profile st line = ⟨st.merged ++ [pyRstrip line], [], st.count⟩ := by
  unfold mergeStep flushCurrent
  by_cases hb : (pyRstrip line).isEmpty
  · have hnil : pyRstrip line = [] := by
      cases hr : pyRstrip line with
      | nil => rfl
      | cons c cs => rw [hr] at hb; simp [List.isEmpty] at hb
    simp [h, hb, hnil]
  · simp [h, hb, isSpecialLine_true]

/-- Folding the loop from an empty buffer appends exactly the
right-trimmed lines. -/
theorem foldl_mergeStep_nil (profile : ProcessingProfile) (lines : List Str) :
    ∀ (acc : List Str) (cnt : Nat),
      lines.foldl (mergeStep profile) ⟨acc, [], cnt⟩
        = ⟨acc ++ lines.map pyRstrip, [], cnt⟩ := by
  induction lines with
  | nil => intro acc cnt; simp
  | cons l ls ih =>
    intro acc cnt
    rw [List.foldl_cons, mergeStep_current_nil profile _ l rfl, ih]
    simp

/-- Under the literal regex semantics of the source every non-blank
line is special, so `_merge_paragraphs` degenerates to right-trimming
each line and never merges. -/
theorem mergeParagraphs_eq (profile : ProcessingProfile) (lines : List Str) :
    mergeParagraphs profile lines = (lines.map pyRstrip, 0) := by
  show (flushCurrent (lines.foldl (mergeStep profile) ⟨[], [], 0⟩),
        (lines.foldl (mergeStep profile) ⟨[], [], 0⟩).count) = _
  rw [foldl_mergeStep_nil]
  simp [flushCurrent]

/-- dropWhile is idempotent. -/
theorem dropWhile_dropWhile (p : Char → Bool) (l : List Char) :
    (l.dropWhile p).dropWhile p = l.dropWhile p := by
  induction l with
  | nil => rfl
  | cons c t ih =>
    by_cases h : p c
    · simp [List.dropWhile_cons, h, ih]
    · simp [List.dropWhile_cons, h]

/-- str.rstrip() is idempotent. -/
theorem pyRstrip_idem (s : Str) : pyRstrip (pyRstrip s) = pyRstrip s := by
  unfold pyRstrip
  rw [List.reverse_reverse, dropWhile_dropWhile]

/-- C7: idempotence of the Paragraph Reconstructor — for every line
sequence and every Profile, re-running `_merge_paragraphs` on its own
output returns that output unchanged with a merge count of zero (no
additional merges, no reduction in the number of lines: the merged
output is a fixed point).  Under the literal regex semantics of the
source this holds because every non-blank line is special and the pass
is exactly a per-line right-trim, which is idempotent. -/
theorem mergeParagraphs_fixed_point (profile : ProcessingProfile) (lines : List Str) :
    mergeParagraphs profile (mergeParagraphs profile lines).1
      = ((mergeParagraphs profile lines).1, 0) := by
  rw [mergeParagraphs_eq profile lines]
  show mergeParagraphs profile (lines.map pyRstrip) = (lines.map pyRstrip, 0)
  rw [mergeParagraphs_eq, List.map_map]
  have hcomp : pyRstrip ∘ pyRstrip = pyRstrip := funext fun s => pyRstrip_idem s
  rw [hcomp]

/-- A profile with every field at its models.py default (all five
toggles on, empty pattern lists). -/
def defaultProfile : ProcessingProfile := {}

/-- C5 (counterexample): under default merging, the input lines
"Hello **wor" and "ld** there" are NOT merged into the single line
"Hello **world** there"; the Reconstructor classifies both as special
lines and passes them through unchanged. -/
theorem split_bold_claim_counterexample :
    (mergeParagraphs defaultProfile
        [String.toList "Hello **wor", String.toList "ld** there"]).1
      ≠ [String.toList "Hello **world** there"] := by
  decide

/-- C5 (amended): under default merging the two lines "Hello **wor"
and "ld** there" pass through `_merge_paragraphs` unchanged with a
merge count of zero, and `_fix_split_formatting` reports no split
formatting for them (the bold repair requires the previous line to end
with "**" and the current line to start with "**", which these lines do
not). -/
theorem split_bold_lines_pass_through :
    mergeParagraphs defaultProfile
        [String.toList "Hello **wor", String.toList "ld** there"]
      = ([String.toList "Hello **wor", String.toList "ld** there"], 0)
    ∧ fixSplitFormatting (String.toList "Hello **wor") (String.toList "ld** there")
      = [] := by
  exact ⟨by decide, by decide⟩

/-- Python line.split("|") — the table detector's segment split
(line 204; this separator is single-escaped and is a real pipe). -/
def splitPipe : Str → List Str
  | [] => [[]]
  | '|' :: rest => [] :: splitPipe rest
  | c :: rest =>
    match splitPipe rest with
    | h :: t => (c :: h) :: t
    | [] => [[c]]

/-- post_processor.py line 204: a line is table-like when it contains
the pipe character and splitting on it yields at least three
segments. -/
def tableLike (l : Str) : Bool :=
  l.contains '|' && decide ((splitPipe l).length ≥ 3)

/-- The `_detect_tables` counting loop (lines 200-210): a transition
from non-table-like to table-like increments the counter once. -/
def detectTablesAux : Bool → List Str → Nat
  | _, [] => 0
  | inTable, l :: ls =>
    if tableLike l then
      (if inTable then detectTablesAux true ls else 1 + detectTablesAux true ls)
    else detectTablesAux false ls

/-- post_processor.py `_detect_tables` (lines 197-211): counts table
runs and returns the lines unchanged. -/
def detectTables (lines : List Str) : List Str × Nat :=
  (lines, detectTablesAux false lines)

/-- Stated from the spec's wording for comparison: the number of
maximal runs of table-like lines, as the number of table-like lines
whose predecessor (initially treated as non-table-like) is not
table-like. -/
def tableRuns (lines : List Str) : Nat :=
  ((false :: lines.map tableLike).zip (lines.map tableLike)).countP
    (fun pb => pb.2 && !pb.1)

/-- post_processor.py `_detect_figures` (lines 213-221): counts lines
whose stripped content matches r"^Figure\\s+\\d+" (the same literal
regex as the special-line pattern `spFigure`) and returns the lines
unchanged. -/
def detectFigures (lines : List Str) : List Str × Nat :=
  (lines, lines.countP (fun l => spFigure (pyStrip l)))

/-- r"\d{4}" (line 231, correctly single-escaped): four consecutive
ASCII digits anywhere in the line. -/
def hasYear : Str → Bool
  | [] => false
  | c1 :: rest =>
    (match rest with
     | c2 :: c3 :: c4 :: _ => c1.isDigit && c2.isDigit && c3.isDigit && c4.isDigit
     | _ => false)
      || hasYear rest

/-- Regex word characters (ASCII alphanumerics and underscore). -/
def isWordChar (c : Char) : Bool := c.isAlphanum || c = '_'

/-- Whether r"et\s+al\." matches at the head of the string: "et", one
or more whitespace characters, then "al.". -/
def etAlHere : Str → Bool
  | 'e' :: 't' :: rest =>
    !(rest.takeWhile isPyWs).isEmpty
      && ['a', 'l', '.'].isPrefixOf (rest.dropWhile isPyWs)
  | _ => false

/-- Scan for r"\bet\s+al\." (line 231, correctly single-escaped): the
word boundary before 'e' holds when the previous character is not a
word character (or at the start of the string). -/
def hasEtAlAux (prevWord : Bool) : Str → Bool
  | [] => false
  | c :: rest => (!prevWord && etAlHere (c :: rest)) || hasEtAlAux (isWordChar c) rest

/-- re.search(r"\bet\s+al\.", ·). -/
def hasEtAl (s : Str) : Bool := hasEtAlAux false s

/-- The `_format_references` counting loop (lines 227-233): a line
whose stripped content matches r"^References\\s*$" (the literal-regex
predicate `spReferences`) turns the in-references flag on (it is never
turned off); while the flag is on, every line with non-empty stripped
content containing a 4-digit year or an "et al." token is counted. -/
def formatReferencesAux : Bool → List Str → Nat
  | _, [] => 0
  | inRefs, l :: ls =>
    if spReferences (pyStrip l) then formatReferencesAux true ls
    else if inRefs && !(pyStrip l).isEmpty && (hasYear l || hasEtAl l) then
      1 + formatReferencesAux inRefs ls
    else formatReferencesAux inRefs ls

/-- post_processor.py `_format_references` (lines 223-234); the profile
argument is unused in the source (`_profile`) and omitted here.  The
lines are returned unchanged. -/
def formatReferences (lines : List Str) : List Str × Nat :=
  (lines, formatReferencesAux false lines)

/-- re.sub(r"\\s+", " ", ·) (line 245): the pattern is a literal
backslash followed by one or more 's' (NOT a whitespace run); each such
occurrence is replaced by one space.  The flag skips the remaining 's'
characters of the greedy run just consumed. -/
def sub1Aux (inRun : Bool) : Str → Str
  | [] => []
  | '\\' :: 's' :: rest => ' ' :: sub1Aux true rest
  | 's' :: rest => if inRun then sub1Aux true rest else 's' :: sub1Aux false rest
  | c :: rest => c :: sub1Aux false rest

/-- re.sub(r"([a-z])- ([a-z])", r"\\1\\2", ·) (line 246): the pattern
is single-escaped and matches lowercase, hyphen, space, lowercase; the
replacement template, however, is `\\1\\2` — two escaped backslashes
followed by the digits — so re.sub substitutes the LITERAL four
characters backslash-1-backslash-2, not the captured groups. -/
def sub2 : Str → Str
  | [] => []
  | a :: '-' :: ' ' :: b :: rest =>
    if a.isLower && b.isLower then
      '\\' :: '1' :: '\\' :: '2' :: sub2 rest
    else a :: sub2 ('-' :: ' ' :: b :: rest)
  | c :: rest => c :: sub2 rest

/-- post_processor.py `_apply_formatting_fixes` (lines 236-253): per
line, the two substitutions then a strip; the fix counter increments
when the result differs from the original line. -/
def applyFormattingFixes : List Str → List Str × Nat
  | [] => ([], 0)
  | l :: ls =>
    let cleaned := pyStrip (sub2 (sub1Aux false l))
    let r := applyFormattingFixes ls
    if cleaned = l then (cleaned :: r.1, r.2) else (cleaned :: r.1, r.2 + 1)

/-- post_processor.py `process_text` (lines 11-48): split on the
literal backslash-n pair, run the toggled stages in order, apply the
formatting fixes, rejoin and count words. -/
def processText (profile : ProcessingProfile) (text : Str) : Str × QualityMetrics :=
  let lines0 := pySplitBsn text
  let hr := if profile.enable_header_removal then
      removeHeaders profile.header_patterns lines0 else (lines0, 0)
  let pm := if profile.enable_paragraph_merging then
      mergeParagraphs profile hr.1 else (hr.1, 0)
  let td := if profile.enable_table_detection then detectTables pm.1 else (pm.1, 0)
  let fd := if profile.enable_figure_detection then detectFigures td.1 else (td.1, 0)
  let rd := if profile.enable_reference_formatting then
      formatReferences fd.1 else (fd.1, 0)
  let ff := applyFormattingFixes rd.1
  let finalText := joinBsn ff.1
  (finalText,
   { lines_processed := lines0.length,
     headers_removed := hr.2,
     paragraphs_merged := pm.2,
     tables_detected := td.2,
     figures_detected := fd.2,
     references_detected := rd.2,
     formatting_fixes := ff.2,
     word_count := (pyWords finalText).length })

/-- The transition counter of `_detect_tables` equals the number of
table-like lines whose predecessor is not table-like, i.e. the number
of maximal table-like runs. -/
theorem detectTablesAux_eq (lines : List Str) :
    ∀ b, detectTablesAux b lines
      = ((b :: lines.map tableLike).zip (lines.map tableLike)).countP
          (fun pb => pb.2 && !pb.1) := by
  induction lines with
  | nil => intro b; rfl
  | cons l ls ih =>
    intro b
    cases htl : tableLike l
    · simp [detectTablesAux, htl, List.countP_cons, ih false]
    · cases b with
      | false =>
        simp [detectTablesAux, htl, List.countP_cons, ih true]
        omega
      | true =>
        simp [detectTablesAux, htl, List.countP_cons, ih true]

/-- C8: the Table detector counts each maximal run of consecutive
table-like lines exactly once (a table-like line counts when its
predecessor is not table-like) and returns the lines unchanged; in
particular three consecutive table-like lines count as one table, and
two such runs separated by a blank line count as two. -/
theorem detectTables_spec :
    (∀ lines, detectTables lines = (lines, tableRuns lines))
    ∧ (detectTables [String.toList "a|b|c", String.toList "d|e|f",
        String.toList "g|h|i"]).2 = 1
    ∧ (detectTables [String.toList "a|b|c", String.toList "d|e|f",
        String.toList "g|h|i", [], String.toList "a|b|c",
        String.toList "d|e|f", String.toList "g|h|i"]).2 = 2 := by
  refine ⟨fun lines => ?_, by decide, by decide⟩
  unfold detectTables tableRuns
  rw [detectTablesAux_eq]

/-- Stated from the claim's words (C2): splitting the text on real
newline characters, for comparison with the code's split on the
literal backslash-n pair. -/
def newlineSplit : Str → List Str
  | [] => [[]]
  | '\n' :: rest => [] :: newlineSplit rest
  | c :: rest =>
    match newlineSplit rest with
    | h :: t => (c :: h) :: t
    | [] => [[c]]

/-- C2 (evaluation at the failing input): on the two-line input
"a", newline, "b", process_text reports lines_processed = 1 — the
source splits on the literal backslash-n pair, not on newline
characters — while splitting on newline characters yields 2 lines. -/
theorem lines_processed_eval :
    (processText defaultProfile (String.toList "a\nb")).2.lines_processed = 1
    ∧ (newlineSplit (String.toList "a\nb")).length = 2 := by
  exact ⟨by decide, by decide⟩

/-- re.match(r"^\d+\s*$", ·): the page-number header pattern supplied
by the C1 scenario profile.  This caller-supplied pattern is a
correctly single-escaped regex: one or more digits followed by
whitespace up to the end of the string. -/
def patPageNum (t : Str) : Bool :=
  !(t.takeWhile Char.isDigit).isEmpty && (t.dropWhile Char.isDigit).all isPyWs

/-- The C1 scenario profile: the single page-number header pattern and
every toggle at its models.py default. -/
def c1Profile : ProcessingProfile := { header_patterns := [patPageNum] }

/-- The C1 scenario input, with real newline characters. -/
def c1Input : Str :=
  String.toList "1\n\nThe cat\nsat on\nthe mat.\n\nReferences\nSmith, 2020."

/-- C1 (evaluation at the failing input): because the source splits on
the literal backslash-n pair, the whole input is one line; that line
does not match the page-number pattern, is classified as special by
the always-matching built-in pattern r"^\\|", and passes through every
stage unchanged.  The final text equals the input (the page-number
line is NOT removed, no merged sentence is produced) and all three
counters the claim expects to be 1, 2 and 1 are 0. -/
theorem end_to_end_scenario_eval :
    processText c1Profile c1Input =
      (c1Input,
       { lines_processed := 1,
         headers_removed := 0,
         paragraphs_merged := 0,
         tables_detected := 0,
         figures_detected := 0,
         references_detected := 0,
         formatting_fixes := 0,
         word_count := 10 }) := by
  decide

/-- C6 (evaluation at the failing input): the Formatting Normalizer
rewrites "exam- ple" to "exa", backslash, "1", backslash, "2", "le" —
the replacement template r"\\1\\2" substitutes the literal characters
backslash-1-backslash-2, not the captured letters — and counts one
fix; and the lines "exam-" and "ple text" are never merged by the
Reconstructor (every non-blank line is special), so "example text" is
never produced. -/
theorem broken_word_fix_eval :
    applyFormattingFixes [String.toList "exam- ple"]
      = ([String.toList "exa\\1\\2le"], 1)
    ∧ (mergeParagraphs defaultProfile
        [String.toList "exam-", String.toList "ple text"]).1
      = [String.toList "exam-", String.toList "ple text"] := by
  exact ⟨by decide, by decide⟩

/-! ## Error timing (C9)

models.py ProcessingProfile is a plain pydantic model: the pattern
fields are `list[str]` and construction only type-checks them — no
validator compiles the pattern strings, so a malformed pattern cannot
be rejected at profile construction time.  The pattern strings are
first handed to `re.match` inside `_remove_headers` and
`_is_special_line` during `process_text`, which is where a malformed
pattern raises `re.error`.  The fallible embedding below keeps the
pattern strings raw in the profile and threads a compilation model
through the stages that apply them. -/

/-- models.py ProcessingProfile exactly as pydantic constructs it: the
pattern lists hold raw strings, accepted without compiling them. -/
structure ProcessingProfileSrc where
  header_patterns : List Str := []
  section_patterns : List Str := []
  enable_paragraph_merging : Bool := true
  enable_header_removal : Bool := true
  enable_table_detection : Bool := true
  enable_figure_detection : Bool := true
  enable_reference_formatting : Bool := true
  min_quality_score : ℚ := 75
  max_retries : Nat := 2

/-- A model of Python re compilation: `none` when the pattern string is
malformed (re.compile raises re.error), otherwise the compiled match
predicate. -/
abbrev ReCompile := Str → Option MatchPred

/-- re.match(pattern, s) where the pattern may fail to compile. -/
def reMatchE (compile : ReCompile) (pat : Str) (s : Str) : Except Unit Bool :=
  match compile pat with
  | none => Except.error ()
  | some f => Except.ok (f s)

/-- The in-order, short-circuiting any-match scan over raw pattern
strings (the inner loops of `_remove_headers` and
`_is_special_line`). -/
def firstMatchE (compile : ReCompile) : List Str → Str → Except Unit Bool
  | [], _ => Except.ok false
  | p :: ps, s => do
    let b ← reMatchE compile p s
    if b then Except.ok true else firstMatchE compile ps s

/-- `_remove_headers` over raw pattern strings: a malformed pattern
raises at its first application. -/
def removeHeadersE (compile : ReCompile) (pats : List Str) :
    List Str → Except Unit (List Str × Nat)
  | [] => Except.ok ([], 0)
  | l :: ls => do
    let isHeader ← firstMatchE compile pats (pyStrip l)
    let r ← removeHeadersE compile pats ls
    if isHeader then Except.ok (r.1, r.2 + 1) else Except.ok (l :: r.1, r.2)

/-- `_is_special_line` over raw section-pattern strings (the built-in
list is fixed and always compiles). -/
def isSpecialLineE (compile : ReCompile) (sectionPats : List Str) (line : Str) :
    Except Unit Bool := do
  let b ← firstMatchE compile sectionPats (pyStrip line)
  if b then Except.ok true
  else Except.ok (specialPatterns.any (fun p => p (pyStrip line)))

/-- One `_merge_paragraphs` iteration over raw section-pattern
strings. -/
def mergeStepE (compile : ReCompile) (sectionPats : List Str) (st : MergeState)
    (line : Str) : Except Unit MergeState :=
  let l := pyRstrip line
  if l.isEmpty then
    Except.ok { merged := flushCurrent st ++ [[]], current := [], count := st.count }
  else do
    let sp ← isSpecialLineE compile sectionPats l
    if sp then
      Except.ok { merged := flushCurrent st ++ [l], current := [], count := st.count }
    else if !st.current.isEmpty && shouldMergeWithPrevious (st.current.getLastD []) l then
      let fixedLine := fixSplitFormatting (st.current.getLastD []) l
      if !fixedLine.isEmpty then
        Except.ok { merged := st.merged, current := st.current.dropLast ++ [fixedLine],
                    count := st.count + 1 }
      else
        Except.ok { merged := st.merged, current := st.current ++ [l],
                    count := st.count + 1 }
    else if !st.current.isEmpty && endsSentence (st.current.getLastD []) then
      Except.ok { merged := st.merged ++ [List.intercalate [' '] st.current],
                  current := [l], count := st.count }
    else
      Except.ok { merged := st.merged, current := st.current ++ [l], count := st.count }

/-- `_merge_paragraphs` over raw section-pattern strings. -/
def mergeParagraphsE (compile : ReCompile) (sectionPats : List Str)
    (lines : List Str) : Except Unit (List Str × Nat) := do
  let st ← lines.foldlM (mergeStepE compile sectionPats) ⟨[], [], 0⟩
  Except.ok (flushCurrent st, st.count)

/-- `process_text` over a raw-string profile: the header and merge
stages can raise on a malformed pattern; the remaining stages use only
fixed regexes and are pure. -/
def processTextE (compile : ReCompile) (profile : ProcessingProfileSrc)
    (text : Str) : Except Unit (Str × QualityMetrics) := do
  let lines0 := pySplitBsn text
  let hr ← if profile.enable_header_removal then
      removeHeadersE compile profile.header_patterns lines0
    else Except.ok (lines0, 0)
  let pm ← if profile.enable_paragraph_merging then
      mergeParagraphsE compile profile.section_patterns hr.1
    else Except.ok (hr.1, 0)
  let td := if profile.enable_table_detection then detectTables pm.1 else (pm.1, 0)
  let fd := if profile.enable_figure_detection then detectFigures td.1 else (td.1, 0)
  let rd := if profile.enable_reference_formatting then
      formatReferences fd.1 else (fd.1, 0)
  let ff := applyFormattingFixes rd.1
  let finalText := joinBsn ff.1
  Except.ok (finalText,
   { lines_processed := lines0.length,
     headers_removed := hr.2,
     paragraphs_merged := pm.2,
     tables_detected := td.2,
     figures_detected := fd.2,
     references_detected := rd.2,
     formatting_fixes := ff.2,
     word_count := (pyWords finalText).length })

/-- A concrete re model for the counterexample: the pattern "([" does
not compile (re.compile("([") raises re.error in Python); every other
pattern is given some compiled predicate. -/
def reBad : ReCompile :=
  fun p => if p = String.toList "([" then none else some (fun _ => false)

/-- A profile whose header-pattern list contains the malformed pattern
"([", as pydantic constructs it — the pattern is stored verbatim. -/
def badProfile : ProcessingProfileSrc := { header_patterns := [String.toList "(["] }

/-- C9 (counterexample): the profile holding the malformed pattern
"([" is constructed without any rejection (the pattern string is stored
verbatim — the model performs no compilation at construction), and
running process_text with it fails DURING pipeline execution, when the
Header Filter first applies the pattern. -/
theorem malformed_pattern_counterexample :
    badProfile.header_patterns = [String.toList "(["]
    ∧ processTextE reBad badProfile (String.toList "x") = Except.error () := by
  exact ⟨rfl, rfl⟩

/-- Bind on a successful Except value reduces to the continuation. -/
theorem exceptOk_bind {α β ε : Type} (a : α) (k : α → Except ε β) :
    (Except.ok a >>= k) = k a := rfl

/-- The in-order any-match scan succeeds when every pattern in the list
compiles. -/
theorem firstMatchE_isOk (compile : ReCompile) (pats : List Str) (s : Str)
    (h : ∀ p ∈ pats, (compile p).isSome) :
    ∃ b, firstMatchE compile pats s = Except.ok b := by
  induction pats with
  | nil => exact ⟨false, rfl⟩
  | cons p ps ih =>
    obtain ⟨f, hf⟩ := Option.isSome_iff_exists.mp (h p (List.mem_cons_self p ps))
    obtain ⟨b, hb⟩ := ih (fun q hq => h q (List.mem_cons_of_mem p hq))
    cases hfs : f s
    · exact ⟨b, by simp [firstMatchE, reMatchE, hf, hfs, hb, exceptOk_bind]⟩
    · exact ⟨true, by simp [firstMatchE, reMatchE, hf, hfs, exceptOk_bind]⟩

/-- `_remove_headers` succeeds on every input when all header patterns
compile. -/
theorem removeHeadersE_isOk (compile : ReCompile) (pats : List Str)
    (lines : List Str) (h : ∀ p ∈ pats, (compile p).isSome) :
    ∃ r, removeHeadersE compile pats lines = Except.ok r := by
  induction lines with
  | nil => exact ⟨([], 0), rfl⟩
  | cons l ls ih =>
    obtain ⟨b, hb⟩ := firstMatchE_isOk compile pats (pyStrip l) h
    obtain ⟨r, hr⟩ := ih
    cases b with
    | false =>
      exact ⟨(l :: r.1, r.2), by simp [removeHeadersE, hb, hr, exceptOk_bind]⟩
    | true =>
      exact ⟨(r.1, r.2 + 1), by simp [removeHeadersE, hb, hr, exceptOk_bind]⟩

/-- `_is_special_line` succeeds (and, as in the pure embedding, always
answers true) when all section patterns compile. -/
theorem isSpecialLineE_ok (compile : ReCompile) (sectionPats : List Str)
    (line : Str) (h : ∀ p ∈ sectionPats, (compile p).isSome) :
    isSpecialLineE compile sectionPats line = Except.ok true := by
  obtain ⟨b, hb⟩ := firstMatchE_isOk compile sectionPats (pyStrip line) h
  cases b with
  | false =>
    simp [isSpecialLineE, hb, exceptOk_bind, specialPatterns_any_true]
  | true =>
    simp [isSpecialLineE, hb, exceptOk_bind]

/-- One merge iteration succeeds when all section patterns compile. -/
theorem mergeStepE_isOk (compile : ReCompile) (sectionPats : List Str)
    (st : MergeState) (line : Str)
    (h : ∀ p ∈ sectionPats, (compile p).isSome) :
    ∃ st2, mergeStepE compile sectionPats st line = Except.ok st2 := by
  by_cases hl : (pyRstrip line).isEmpty
  · exact ⟨⟨flushCurrent st ++ [[]], [], st.count⟩, by simp [mergeStepE, hl]⟩
  · refine ⟨⟨flushCurrent st ++ [pyRstrip line], [], st.count⟩, ?_⟩
    simp [mergeStepE, hl, isSpecialLineE_ok compile sectionPats _ h, exceptOk_bind]

/-- Folding the fallible merge loop succeeds when all section patterns
compile. -/
theorem foldlM_mergeStepE_isOk (compile : ReCompile) (sectionPats : List Str)
    (lines : List Str) (h : ∀ p ∈ sectionPats, (compile p).isSome) :
    ∀ st, ∃ st2, (lines.foldlM (mergeStepE compile sectionPats) st) = Except.ok st2 := by
  induction lines with
  | nil => intro st; exact ⟨st, rfl⟩
  | cons l ls ih =>
    intro st
    obtain ⟨st1, h1⟩ := mergeStepE_isOk compile sectionPats st l h
    obtain ⟨st2, h2⟩ := ih st1
    exact ⟨st2, by rw [List.foldlM_cons, h1, exceptOk_bind, h2]⟩

/-- `_merge_paragraphs` succeeds when all section patterns compile. -/
theorem mergeParagraphsE_isOk (compile : ReCompile) (sectionPats : List Str)
    (lines : List Str) (h : ∀ p ∈ sectionPats, (compile p).isSome) :
    ∃ r, mergeParagraphsE compile sectionPats lines = Except.ok r := by
  obtain ⟨st, hst⟩ := foldlM_mergeStepE_isOk compile sectionPats lines h ⟨[], [], 0⟩
  exact ⟨(flushCurrent st, st.count),
    by simp [mergeParagraphsE, hst, exceptOk_bind]⟩

/-- C9 (amended): process_text is total for any input string and any
Profile whose header and section pattern strings all compile; but a
malformed pattern is NOT rejected at profile construction time — the
Profile stores raw pattern strings without compiling them — and instead
surfaces as a pattern-compilation failure while the pipeline is
executing (see the counterexample theorem for the failing run). -/
theorem processTextE_total_of_wellformed (compile : ReCompile)
    (profile : ProcessingProfileSrc) (text : Str)
    (hh : ∀ p ∈ profile.header_patterns, (compile p).isSome)
    (hs : ∀ p ∈ profile.section_patterns, (compile p).isSome) :
    ∃ r, processTextE compile profile text = Except.ok r := by
  by_cases ht : profile.enable_header_removal
  · obtain ⟨hr, hhr⟩ :=
      removeHeadersE_isOk compile profile.header_patterns (pySplitBsn text) hh
    by_cases hm : profile.enable_paragraph_merging
    · obtain ⟨pm, hpm⟩ :=
        mergeParagraphsE_isOk compile profile.section_patterns hr.1 hs
      simp only [processTextE]
      rw [if_pos ht, hhr]
      simp only [exceptOk_bind]
      rw [if_pos hm, hpm]
      simp only [exceptOk_bind]
      exact ⟨_, rfl⟩
    · simp only [processTextE]
      rw [if_pos ht, hhr]
      simp only [exceptOk_bind]
      rw [if_neg hm]
      exact ⟨_, rfl⟩
  · by_cases hm : profile.enable_paragraph_merging
    · simp only [processTextE]
      rw [if_neg ht]
      simp only [exceptOk_bind]
      obtain ⟨pm, hpm⟩ :=
        mergeParagraphsE_isOk compile profile.section_patterns (pySplitBsn text, 0).1 hs
      rw [if_pos hm, hpm]
      simp only [exceptOk_bind]
      exact ⟨_, rfl⟩
    · simp only [processTextE]
      rw [if_neg ht]
      simp only [exceptOk_bind]
      rw [if_neg hm]
      exact ⟨_, rfl⟩

/-- C9 (witness): the totality theorem applied at a concrete compile
model, profile and input. -/
theorem processTextE_total_witness :
    ∃ r, processTextE (fun _ => some (fun _ => false))
        { header_patterns := [String.toList "abc"],
          section_patterns := [String.toList "xyz"] }
        (String.toList "hello") = Except.ok r :=
  processTextE_total_of_wellformed (fun _ => some (fun _ => false))
    { header_patterns := [String.toList "abc"],
      section_patterns := [String.toList "xyz"] }
    (String.toList "hello")
    (fun _ _ => rfl) (fun _ _ => rfl)
